import Mathlib

/-
  Verification development for the TISS claim-to-XML generation and
  validation pipeline (services/xml_generator.py and
  services/xml_validator.py, with the entity columns taken from the
  SQLAlchemy models in models/).

  Modelling conventions:
  * Machine behaviour of the two third-party XML libraries the services
    call (xml.etree.ElementTree for building and serialising, lxml for
    schema parsing and validation) is embedded only to the depth the
    services exercise it; every such point is documented at the
    definition it concerns.
  * Raising a Python exception is modelled as the .error case of Except;
    a function that catches every exception is total (or always .ok).
  * The XSD file on disk is modelled by FileState: absent, or present
    with the outcome of parsing its bytes as XML plus its byte size.
-/

namespace TISS

/-- Calendar date as stored in the Date columns of the models
(claims.claim_date, patients.birth_date) and produced by datetime.now. -/
structure PyDate where
  year : Nat
  month : Nat
  day : Nat
deriving DecidableEq, Repr

/-- Left zero padding used by strftime directives such as %m / %d (%Y is
modelled as padded to four digits, which holds for all years since 1000). -/
def padNat (width n : Nat) : String :=
  let s := toString n
  if s.length < width then
    String.mk (List.replicate (width - s.length) (Char.ofNat 48)) ++ s
  else s

/-- strftime("%Y-%m-%d") on a date value. -/
def PyDate.fmt (d : PyDate) : String :=
  padNat 4 d.year ++ "-" ++ padNat 2 d.month ++ "-" ++ padNat 2 d.day

def isLeapYear (y : Nat) : Bool :=
  (y % 4 == 0 && y % 100 != 0) || (y % 400 == 0)

def daysInMonth (y m : Nat) : Nat :=
  if m == 2 then (if isLeapYear y then 29 else 28)
  else if m == 4 || m == 6 || m == 9 || m == 11 then 30
  else 31

def PyDate.nextDay (d : PyDate) : PyDate :=
  if d.day < daysInMonth d.year d.month then ⟨d.year, d.month, d.day + 1⟩
  else if d.month < 12 then ⟨d.year, d.month + 1, 1⟩
  else ⟨d.year + 1, 1, 1⟩

/-- date + timedelta(days = n), by iterating the successor day. -/
def PyDate.addDays (d : PyDate) : Nat → PyDate
  | 0 => d
  | n + 1 => d.nextDay.addDays n

/-- Row of the patients table; only the columns the generator reads,
plus the remaining non-null data columns (models/patients.py). -/
structure Patient where
  id : Nat
  name : String
  cpf : String
  birth_date : PyDate
  address : String
  phone : String
  email : String
deriving DecidableEq, Repr

/-- Row of the providers table (models/providers.py); the generator reads
cnpj, name, address and contact. -/
structure Provider where
  id : Nat
  name : String
  cnpj : String
  address : String
  contact : String
deriving DecidableEq, Repr

/-- Row of the health_plans table (models/health_plans.py). -/
structure HealthPlan where
  id : Nat
  name : String
  operator_code : String
  registration_number : String
deriving DecidableEq, Repr

/-- Row of the claims table (models/claims.py).  The value column is
Numeric(10, 2): a fixed-point number with two decimal places, modelled in
hundredths. procedure_code, diagnosis_code and description are nullable. -/
structure Claim where
  id : Nat
  patient_id : Nat
  provider_id : Nat
  plan_id : Nat
  procedure_code : Option String
  diagnosis_code : Option String
  claim_date : PyDate
  valueCents : Nat
  description : Option String
  status : String
deriving DecidableEq, Repr

/-- str(claim.value) where the value comes back from the Numeric(10, 2)
column as a two-decimal fixed-point number (SQLAlchemy converts with a
%.2f format on retrieval), e.g. 25000 hundredths prints as "250.00". -/
def Claim.valueStr (c : Claim) : String :=
  toString (c.valueCents / 100) ++ "." ++ padNat 2 (c.valueCents % 100)

/-- The visible database state behind SessionLocal: the four tables the
generator queries.  db.query(T).filter(T.id == i).first() is find? on id. -/
structure DB where
  claims : List Claim
  patients : List Patient
  providers : List Provider
  health_plans : List HealthPlan
deriving DecidableEq, Repr

def DB.findClaim (db : DB) (i : Nat) : Option Claim :=
  db.claims.find? (fun c => c.id == i)

def DB.findPatient (db : DB) (i : Nat) : Option Patient :=
  db.patients.find? (fun p => p.id == i)

def DB.findProvider (db : DB) (i : Nat) : Option Provider :=
  db.providers.find? (fun p => p.id == i)

def DB.findHealthPlan (db : DB) (i : Nat) : Option HealthPlan :=
  db.health_plans.find? (fun p => p.id == i)

/-
  XML element trees.  One type serves both presentations the services
  see: ElementTree elements built by the generator (prefixed tag kept
  verbatim, xmlns:ans carried as an ordinary attribute, empty nsmap) and
  lxml elements of a parsed document (tags in expanded
  braced-URI.local form, namespace declarations in nsmap, not in attrib).
  The children are a mutually inductive forest so every recursion below
  is structural.  Text of an element with text=None is modelled "",
  which ElementTree serialises identically.  Comment and processing
  instruction nodes of a parsed document are not modelled; the services
  never consult them.
-/

mutual
inductive XElem : Type where
  | node (tag : String) (attrib : List (String × String))
      (nsmap : List (String × String)) (children : XForest) (text : String)
deriving DecidableEq, Repr
inductive XForest : Type where
  | nil
  | cons (head : XElem) (tail : XForest)
deriving DecidableEq, Repr
end

def XForest.ofList : List XElem → XForest
  | [] => .nil
  | e :: es => .cons e (XForest.ofList es)

/-- Element with children given as a list. -/
def xnode (t : String) (a ns : List (String × String)) (cs : List XElem)
    (tx : String) : XElem :=
  .node t a ns (.ofList cs) tx

/-- Leaf element holding only text (SubElement followed by .text = ...). -/
def xleaf (t tx : String) : XElem := .node t [] [] .nil tx

def XElem.tag : XElem → String
  | .node t _ _ _ _ => t

def XElem.attrib : XElem → List (String × String)
  | .node _ a _ _ _ => a

def XElem.nsmap : XElem → List (String × String)
  | .node _ _ ns _ _ => ns

def XElem.children : XElem → XForest
  | .node _ _ _ cs _ => cs

def XElem.text : XElem → String
  | .node _ _ _ _ tx => tx

def XForest.isNil : XForest → Bool
  | .nil => true
  | .cons _ _ => false

/-- elem.get(key, default handled by caller). -/
def XElem.attrVal (e : XElem) (k : String) : Option String :=
  (e.attrib.find? (fun p => p.1 == k)).map (fun p => p.2)

mutual
/-- All strict descendants of an element, in document order. -/
def XElem.descendants : XElem → List XElem
  | .node _ _ _ cs _ => cs.collectAll
/-- The elements of a forest together with all their descendants. -/
def XForest.collectAll : XForest → List XElem
  | .nil => []
  | .cons e es => e :: e.descendants ++ es.collectAll
end

/-
  Serialisation, modelling ET.tostring(root, encoding="unicode",
  method="xml").  Checked against CPython: no XML declaration is emitted
  for encoding="unicode"; attributes keep dict insertion order; an
  element with neither text nor children serialises as a spaced
  self-closing tag; text escapes are amp, lt, gt and attribute escapes
  additionally quot and the numeric tab, lf, cr references.
-/

def escTextChar (c : Char) : String :=
  if c = '&' then "&amp;"
  else if c = '<' then "&lt;"
  else if c = '>' then "&gt;"
  else String.singleton c

def escText (s : String) : String :=
  String.join (s.data.map escTextChar)

def escAttrChar (c : Char) : String :=
  if c = '&' then "&amp;"
  else if c = '<' then "&lt;"
  else if c = '>' then "&gt;"
  else if c = '"' then "&quot;"
  else if c = Char.ofNat 13 then "&#13;"
  else if c = Char.ofNat 10 then "&#10;"
  else if c = Char.ofNat 9 then "&#09;"
  else String.singleton c

def escAttr (s : String) : String :=
  String.join (s.data.map escAttrChar)

def attrsString (a : List (String × String)) : String :=
  String.join (a.map (fun p => " " ++ p.1 ++ "=\"" ++ escAttr p.2 ++ "\""))

mutual
def XElem.serialize : XElem → String
  | .node t a _ cs tx =>
    if cs.isNil && tx == "" then
      "<" ++ t ++ attrsString a ++ " />"
    else
      "<" ++ t ++ attrsString a ++ ">" ++ escText tx ++ cs.serializeAll
        ++ "</" ++ t ++ ">"
def XForest.serializeAll : XForest → String
  | .nil => ""
  | .cons e es => e.serialize ++ es.serializeAll
end

/-
  Document assembler: TISSXMLGenerator (services/xml_generator.py),
  entity-driven path.  The two datetime.now() calls (one in the header
  builder, one in the footer builder) are modelled by the now argument;
  both builders are called within one request, so they see the same day.
-/

def tiss_version : String := "3.05.00"

def xmlnsAns : String := "http://www.ans.gov.br/padroes/tiss/schemas"

/-- _create_tiss_header. -/
def create_tiss_header (claim : Claim) (_patient : Patient)
    (provider : Provider) (health_plan : HealthPlan) (now : PyDate) : XElem :=
  xnode "ans:cabecalho" [] []
    [ xnode "ans:identificacaoOperadora" [] []
        [ xleaf "ans:codigoOperadora" health_plan.operator_code,
          xleaf "ans:registroANS" health_plan.registration_number ] "",
      xnode "ans:dadosPrestador" [] []
        [ xleaf "ans:cnpjPrestador" provider.cnpj,
          xleaf "ans:registroANS" health_plan.registration_number ] "",
      xleaf "ans:dataProcessamento" now.fmt,
      xleaf "ans:numeroProtocolo" (toString claim.id) ] ""

/-- _create_tiss_body. -/
def create_tiss_body (claim : Claim) (patient : Patient)
    (provider : Provider) (_health_plan : HealthPlan) : XElem :=
  xnode "ans:corpo" [] []
    [ xnode "ans:dadosGuia" [] []
        [ xnode "ans:identificacaoGuia" [] []
            [ xleaf "ans:numeroGuiaPrestador" (toString claim.id),
              xleaf "ans:numeroGuiaOperadora" (toString claim.id),
              xleaf "ans:dataAutorizacao" claim.claim_date.fmt,
              xleaf "ans:senha" "123456",
              xleaf "ans:dataValidadeSenha" (claim.claim_date.addDays 30).fmt ] "",
          xnode "ans:dadosBeneficiario" [] []
            [ xleaf "ans:numeroCarteira" (toString patient.id),
              xleaf "ans:nomeBeneficiario" patient.name,
              xleaf "ans:dataNascimento" patient.birth_date.fmt,
              xleaf "ans:sexo" "I",
              xleaf "ans:cpf" patient.cpf ] "",
          xnode "ans:dadosPrestador" [] []
            [ xleaf "ans:cnpjPrestador" provider.cnpj,
              xleaf "ans:nomePrestador" provider.name,
              xleaf "ans:enderecoPrestador" provider.address ] "",
          xnode "ans:dadosProfissionalExecutante" [] []
            [ xleaf "ans:nomeProfissional" provider.contact,
              xleaf "ans:conselhoProfissional" "CRM",
              xleaf "ans:numeroRegistroProfissional" "12345",
              xleaf "ans:ufConselho" "SP",
              xleaf "ans:cbos" "225103" ] "",
          xnode "ans:dadosProcedimento" [] []
            [ xleaf "ans:codigoProcedimento" (claim.procedure_code.getD ""),
              xleaf "ans:descricaoProcedimento"
                (claim.description.getD "Procedimento médico"),
              xleaf "ans:dataProcedimento" claim.claim_date.fmt,
              xleaf "ans:valorProcedimento" claim.valueStr ] "",
          xnode "ans:diagnostico" [] []
            [ xleaf "ans:codigoDiagnostico" (claim.diagnosis_code.getD ""),
              xleaf "ans:descricaoDiagnostico" "Diagnóstico médico" ] "",
          xnode "ans:valoresInformados" [] []
            [ xleaf "ans:valorTotalGeral" claim.valueStr,
              xleaf "ans:valorTotalProcedimentos" claim.valueStr ] "" ] "" ] ""

/-- _create_tiss_footer. -/
def create_tiss_footer (claim : Claim) (provider : Provider)
    (now : PyDate) : XElem :=
  xnode "ans:rodape" [] []
    [ xnode "ans:dadosPrestador" [] []
        [ xleaf "ans:cnpjPrestador" provider.cnpj,
          xleaf "ans:registroANS" "123456" ] "",
      xleaf "ans:dataProcessamento" now.fmt,
      xleaf "ans:valorTotalGeral" claim.valueStr ] ""

/-- The root element with header, body and footer appended, as built
inside generate_tiss_xml. -/
def buildRoot (claim : Claim) (patient : Patient) (provider : Provider)
    (health_plan : HealthPlan) (now : PyDate) : XElem :=
  xnode "ans:mensagemTISS"
    [("xmlns:ans", xmlnsAns), ("version", tiss_version)] []
    [ create_tiss_header claim patient provider health_plan now,
      create_tiss_body claim patient provider health_plan,
      create_tiss_footer claim provider now ] ""

/-- The try block of generate_tiss_xml: the four id lookups with their
bare ValueError messages, then the element tree.  The wrapping
except-clause is generate_tiss_xml below. -/
def generate_tiss_xml_core (db : DB) (now : PyDate) (claim_id : Nat) :
    Except String XElem :=
  match db.findClaim claim_id with
  | none => .error ("Claim with ID " ++ toString claim_id ++ " not found")
  | some claim =>
    match db.findPatient claim.patient_id with
    | none => .error ("Patient with ID " ++ toString claim.patient_id ++ " not found")
    | some patient =>
      match db.findProvider claim.provider_id with
      | none => .error ("Provider with ID " ++ toString claim.provider_id ++ " not found")
      | some provider =>
        match db.findHealthPlan claim.plan_id with
        | none => .error ("Health plan with ID " ++ toString claim.plan_id ++ " not found")
        | some health_plan =>
          .ok (buildRoot claim patient provider health_plan now)

/-- generate_tiss_xml: any exception escaping the try block is re-raised
as ValueError("Error generating XML: " + str(e)). -/
def generate_tiss_xml (db : DB) (now : PyDate) (claim_id : Nat) :
    Except String String :=
  match generate_tiss_xml_core db now claim_id with
  | .error e => .error ("Error generating XML: " ++ e)
  | .ok root => .ok root.serialize

/-
  Schema validator: TISSXMLValidator (services/xml_validator.py).
  The XSD file on disk is modelled by how its bytes parse as XML (the
  synthesised fallback file is always well formed, so its parsed tree is
  given as a value below) together with its byte size.
-/

inductive FileState where
  | absent
  | present (parse : Except String XElem) (size : Nat)
deriving Repr

/-- xsd_file_exists. -/
def xsd_file_exists : FileState → Bool
  | .absent => false
  | .present _ _ => true

def xsU : String := "http://www.w3.org/2001/XMLSchema"

/-- Expanded tag in the braced-URI form lxml presents. -/
def clark (ns l : String) : String := "\x7b" ++ ns ++ "\x7d" ++ l

def xsE (n ty : String) : XElem :=
  xnode (clark xsU "element") [("name", n), ("type", ty)] [] [] ""

def xsAttrDecl (n ty req : String) : XElem :=
  xnode (clark xsU "attribute") [("name", n), ("type", ty), ("use", req)] [] [] ""

def xsSeq (cs : List XElem) : XElem :=
  xnode (clark xsU "sequence") [] [] cs ""

def xsCT (n : String) (cs : List XElem) : XElem :=
  xnode (clark xsU "complexType") [("name", n)] [] [xsSeq cs] ""

/-- The fallback schema written by create_basic_tiss_xsd, as lxml parses
it: tags expanded against the two declared namespaces, the namespace
declarations in nsmap, the XML comments dropped (the code never reads
them). -/
def fallbackXsdDoc : XElem :=
  xnode (clark xsU "schema")
    [("targetNamespace", xmlnsAns), ("elementFormDefault", "qualified")]
    [("xs", xsU), ("ans", xmlnsAns)]
    [ xnode (clark xsU "element") [("name", "mensagemTISS")] []
        [ xnode (clark xsU "complexType") [] []
            [ xsSeq
                [ xsE "cabecalho" "ans:CabecalhoType",
                  xsE "corpo" "ans:CorpoType",
                  xsE "rodape" "ans:RodapeType" ],
              xsAttrDecl "version" "xs:string" "required",
              xsAttrDecl "xmlns:ans" "xs:string" "required" ] "" ] "",
      xsCT "CabecalhoType"
        [ xsE "identificacaoOperadora" "ans:IdentificacaoOperadoraType",
          xsE "dadosPrestador" "ans:DadosPrestadorType",
          xsE "dataProcessamento" "xs:date",
          xsE "numeroProtocolo" "xs:string" ],
      xsCT "IdentificacaoOperadoraType"
        [ xsE "codigoOperadora" "xs:string",
          xsE "registroANS" "xs:string" ],
      xsCT "DadosPrestadorType"
        [ xsE "cnpjPrestador" "xs:string",
          xsE "registroANS" "xs:string" ],
      xsCT "CorpoType"
        [ xsE "dadosGuia" "ans:DadosGuiaType" ],
      xsCT "DadosGuiaType"
        [ xsE "identificacaoGuia" "ans:IdentificacaoGuiaType",
          xsE "dadosBeneficiario" "ans:DadosBeneficiarioType",
          xsE "dadosPrestador" "ans:DadosPrestadorGuiaType",
          xsE "dadosProfissionalExecutante" "ans:DadosProfissionalType",
          xsE "dadosProcedimento" "ans:DadosProcedimentoType",
          xsE "diagnostico" "ans:DiagnosticoType",
          xsE "valoresInformados" "ans:ValoresInformadosType" ],
      xsCT "IdentificacaoGuiaType"
        [ xsE "numeroGuiaPrestador" "xs:string",
          xsE "numeroGuiaOperadora" "xs:string",
          xsE "dataAutorizacao" "xs:date",
          xsE "senha" "xs:string",
          xsE "dataValidadeSenha" "xs:date" ],
      xsCT "DadosBeneficiarioType"
        [ xsE "numeroCarteira" "xs:string",
          xsE "nomeBeneficiario" "xs:string",
          xsE "dataNascimento" "xs:date",
          xsE "sexo" "xs:string",
          xsE "cpf" "xs:string" ],
      xsCT "DadosPrestadorGuiaType"
        [ xsE "cnpjPrestador" "xs:string",
          xsE "nomePrestador" "xs:string",
          xsE "enderecoPrestador" "xs:string" ],
      xsCT "DadosProfissionalType"
        [ xsE "nomeProfissional" "xs:string",
          xsE "conselhoProfissional" "xs:string",
          xsE "numeroRegistroProfissional" "xs:string",
          xsE "ufConselho" "xs:string",
          xsE "cbos" "xs:string" ],
      xsCT "DadosProcedimentoType"
        [ xsE "codigoProcedimento" "xs:string",
          xsE "descricaoProcedimento" "xs:string",
          xsE "dataProcedimento" "xs:date",
          xsE "valorProcedimento" "xs:decimal" ],
      xsCT "DiagnosticoType"
        [ xsE "codigoDiagnostico" "xs:string",
          xsE "descricaoDiagnostico" "xs:string" ],
      xsCT "ValoresInformadosType"
        [ xsE "valorTotalGeral" "xs:decimal",
          xsE "valorTotalProcedimentos" "xs:decimal" ],
      xsCT "RodapeType"
        [ xsE "dadosPrestador" "ans:DadosPrestadorType",
          xsE "dataProcessamento" "xs:date",
          xsE "valorTotalGeral" "xs:decimal" ] ] ""

/-- Byte size of the basic_xsd literal written by create_basic_tiss_xsd
(pure ASCII, 5940 bytes). -/
def fallbackXsdSizeBytes : Nat := 5940

/-
  Model of etree.XMLSchema(doc) construction (libxml2).  libxml2 checks,
  while parsing a schema document, that the name attribute of every
  element and attribute declaration is an xs:NCName, and separately that
  no attribute declaration is named xmlns (W3C XML Schema part 1,
  sections 3.2.3 and 3.3.3); on any such violation the schema fails to
  build and lxml raises XMLSchemaParseError.  NCName characters are
  modelled on their ASCII subset; the decisive fact, that a colon is
  never an NCName character, is exact.  Other schema-validity checks
  that the schemas in this repository do not trip are not modelled.
-/

def isNCNameStartChar (c : Char) : Bool := c.isAlpha || c = '_'

def isNCNameChar (c : Char) : Bool :=
  c.isAlphanum || c = '_' || c = '-' || c = '.'

def isNCName (s : String) : Bool :=
  match s.data with
  | [] => false
  | c :: cs => isNCNameStartChar c && cs.all isNCNameChar

/-- First schema-representation error among the element and attribute
declarations of a schema document, in document order. -/
def declNameError (doc : XElem) : Option String :=
  (doc.descendants.filterMap fun e =>
    if e.tag == clark xsU "element" || e.tag == clark xsU "attribute" then
      match e.attrVal "name" with
      | some n =>
        if !(isNCName n) then
          some ("attribute name: the value " ++ n
            ++ " is not a valid value of the atomic type xs:NCName")
        else if e.tag == clark xsU "attribute" && n == "xmlns" then
          some "attribute name: the value xmlns is not allowed"
        else none
      | none => none
    else none).head?

structure CompiledSchema where
  targetNamespace : String
  doc : XElem

/-- etree.XMLSchema(xsd_doc): fails with the first representation error,
otherwise keeps the document for interpretation at validation time. -/
def compileSchema (doc : XElem) : Except String CompiledSchema :=
  if doc.tag != clark xsU "schema" then
    .error "the document is not a schema document"
  else
    match declNameError doc with
    | some msg => .error msg
    | none => .ok ⟨(doc.attrVal "targetNamespace").getD "", doc⟩

/-
  Model of etree.fromstring (lxml): a recursive-descent parser for the
  XML fragment the services produce and receive (declaration, comments,
  elements, attributes, character data, the five predefined entities),
  followed by namespace expansion into the braced-URI form.  Character
  data is concatenated into the text of the enclosing element; the split
  into text and tails is not modelled (no code here reads it).
-/

def skipWs (cs : List Char) : List Char := cs.dropWhile (fun c => c.isWhitespace)

def isRawNameChar (c : Char) : Bool :=
  c.isAlphanum || c = '_' || c = '-' || c = '.' || c = ':'

def takeRawName (cs : List Char) : String × List Char :=
  (String.mk (cs.takeWhile isRawNameChar), cs.dropWhile isRawNameChar)

/-- Decode a character-data run up to the next angle bracket, resolving
the predefined entity references. -/
def takeCharData : Nat → List Char → Except String (String × List Char)
  | 0, _ => .error "internal fuel exhausted"
  | _, [] => .ok ("", [])
  | fuel + 1, c :: cs =>
    if c = '<' then .ok ("", c :: cs)
    else if c = '&' then
      let tryEnt : String → String → Option (String × List Char) := fun name rep =>
        if (name.data ++ [';']).isPrefixOf cs then
          some (rep, cs.drop (name.length + 1))
        else none
      match tryEnt "amp" "&" <|> tryEnt "lt" "<" <|> tryEnt "gt" ">"
          <|> tryEnt "quot" "\"" <|> tryEnt "apos" "\x27" with
      | some (rep, rest) => do
        let (s, rest2) ← takeCharData fuel rest
        .ok (rep ++ s, rest2)
      | none => .error "undefined entity reference"
    else do
      let (s, rest) ← takeCharData fuel cs
      .ok (String.singleton c ++ s, rest)

def parseAttrList : Nat → List Char → Except String (List (String × String) × List Char)
  | 0, _ => .error "internal fuel exhausted"
  | fuel + 1, cs =>
    let cs := skipWs cs
    match cs with
    | [] => .ok ([], [])
    | c :: _ =>
      if c = '>' || c = '/' || c = '?' then .ok ([], cs)
      else
        let (n, cs1) := takeRawName cs
        if n = "" then .error "malformed attribute name"
        else
          match skipWs cs1 with
          | '=' :: cs2 =>
            match skipWs cs2 with
            | q :: cs3 =>
              if q = '"' || q = '\x27' then
                let v := cs3.takeWhile (fun c => c ≠ q)
                match cs3.dropWhile (fun c => c ≠ q) with
                | _ :: cs4 => do
                  let (rest, cs5) ← parseAttrList fuel cs4
                  .ok ((n, String.mk v) :: rest, cs5)
                | [] => .error "unterminated attribute value"
              else .error "attribute value not quoted"
            | [] => .error "unexpected end in attribute"
          | _ => .error "expected equals sign in attribute"

def dropToCommentEnd : Nat → List Char → Option (List Char)
  | 0, _ => none
  | _, [] => none
  | fuel + 1, c :: cs =>
    if c = '-' then
      match cs with
      | '-' :: '>' :: rest => some rest
      | _ => dropToCommentEnd fuel cs
    else dropToCommentEnd fuel cs

/- Raw elements before namespace expansion: xmlns declarations still
among the attributes, tags still prefixed. -/
mutual
def parseRawElement : Nat → List Char → Except String (XElem × List Char)
  | 0, _ => .error "internal fuel exhausted"
  | fuel + 1, cs =>
    match cs with
    | '<' :: cs1 =>
      let (tag, cs2) := takeRawName cs1
      if tag = "" then .error "malformed start tag"
      else do
        let (attrs, cs3) ← parseAttrList fuel cs2
        match skipWs cs3 with
        | '/' :: '>' :: cs4 => .ok (.node tag attrs [] .nil "", cs4)
        | '>' :: cs4 => do
          let (tx, kids, cs5) ← parseRawContent fuel cs4
          let cs5 := skipWs cs5
          match cs5 with
          | '<' :: '/' :: cs6 =>
            let (closeTag, cs7) := takeRawName cs6
            if closeTag ≠ tag then .error ("mismatched end tag " ++ closeTag)
            else
              match skipWs cs7 with
              | '>' :: cs8 => .ok (.node tag attrs [] (.ofList kids) tx, cs8)
              | _ => .error "malformed end tag"
          | _ => .error ("no end tag for " ++ tag)
        | _ => .error "malformed start tag end"
    | _ => .error "expected start tag"
def parseRawContent : Nat → List Char →
    Except String (String × List XElem × List Char)
  | 0, _ => .error "internal fuel exhausted"
  | fuel + 1, cs => do
    let (tx, cs1) ← takeCharData fuel cs
    match cs1 with
    | '<' :: '/' :: _ => .ok (tx, [], cs1)
    | '<' :: '!' :: '-' :: '-' :: cs2 =>
      match dropToCommentEnd fuel cs2 with
      | some cs3 => do
        let (tx2, kids, cs4) ← parseRawContent fuel cs3
        .ok (tx ++ tx2, kids, cs4)
      | none => .error "unterminated comment"
    | '<' :: _ => do
      let (e, cs2) ← parseRawElement fuel cs1
      let (tx2, kids, cs3) ← parseRawContent fuel cs2
      .ok (tx ++ tx2, e :: kids, cs3)
    | _ => .error "unexpected end of document"
end

def splitOnColon (s : String) : Option (String × String) :=
  if s.data.contains ':' then
    some (String.mk (s.data.takeWhile (fun c => c ≠ ':')),
      String.mk ((s.data.dropWhile (fun c => c ≠ ':')).drop 1))
  else none

/- Namespace expansion: tags and prefixed attribute names go to the
braced-URI form, xmlns declarations move from attrib to nsmap. -/
mutual
def expandElem (env : List (String × String)) : XElem → Except String XElem
  | .node tag attrs _ kids tx =>
    let decls := attrs.filterMap fun p =>
      if p.1 == "xmlns" then some ("", p.2)
      else match splitOnColon p.1 with
        | some (q, l) => if q == "xmlns" then some (l, p.2) else none
        | none => none
    let env2 := decls ++ env.filter (fun p => decls.all (fun d => d.1 ≠ p.1))
    let plainAttrs := attrs.filter fun p =>
      p.1 != "xmlns" &&
        (match splitOnColon p.1 with
         | some (q, _) => q != "xmlns"
         | none => true)
    do
      let tag2 ←
        match splitOnColon tag with
        | some (q, l) =>
          match env2.find? (fun p => p.1 == q) with
          | some (_, uri) => Except.ok (clark uri l)
          | none => Except.error ("namespace prefix " ++ q ++ " is not defined")
        | none =>
          match env2.find? (fun p => p.1 == "") with
          | some (_, uri) => Except.ok (clark uri tag)
          | none => Except.ok tag
      let attrs2 ← plainAttrs.mapM fun p =>
        match splitOnColon p.1 with
        | some (q, l) =>
          match env2.find? (fun d => d.1 == q) with
          | some (_, uri) => Except.ok (clark uri l, p.2)
          | none => Except.error ("namespace prefix " ++ q ++ " is not defined")
        | none => Except.ok p
      let kids2 ← expandForest env2 kids
      .ok (.node tag2 attrs2 env2 kids2 tx)
def expandForest (env : List (String × String)) : XForest → Except String XForest
  | .nil => .ok .nil
  | .cons e es => do
    let e2 ← expandElem env e
    let es2 ← expandForest env es
    .ok (.cons e2 es2)
end

def dropToPiEnd : Nat → List Char → Option (List Char)
  | 0, _ => none
  | _, [] => none
  | fuel + 1, c :: cs =>
    if c = '?' then
      match cs with
      | '>' :: rest => some rest
      | _ => dropToPiEnd fuel cs
    else dropToPiEnd fuel cs

/-- Skip the optional XML declaration and any top-level comments and
whitespace before the root element. -/
def skipProlog : Nat → List Char → Except String (List Char)
  | 0, _ => .error "internal fuel exhausted"
  | fuel + 1, cs =>
    match skipWs cs with
    | '<' :: '?' :: cs1 =>
      match dropToPiEnd fuel cs1 with
      | some cs2 => skipProlog fuel cs2
      | none => .error "unterminated processing instruction"
    | '<' :: '!' :: '-' :: '-' :: cs1 =>
      match dropToCommentEnd fuel cs1 with
      | some cs2 => skipProlog fuel cs2
      | none => .error "unterminated comment"
    | rest => .ok rest

/-- etree.fromstring(xml_content.encode("utf-8")). -/
def parseXml (s : String) : Except String XElem := do
  let fuel := s.length + 2
  let cs ← skipProlog fuel s.data
  let (raw, rest) ← parseRawElement fuel cs
  if (skipWs rest).isEmpty then
    expandElem [] raw
  else
    .error "extra content at the end of the document"

/-
  Structural validation of a parsed instance document against a compiled
  schema (xsd_schema.validate(xml_doc) together with the error-log
  translation loop: one string per diagnostic, prefixed with its line
  number).  Line numbers are not tracked by this embedding, so every
  diagnostic is reported at line 0; no claim consults them.  Only the
  constructs the fallback schema uses are interpreted: element
  declarations with builtin or named complex types, single-occurrence
  sequences, and required attributes.
-/

def XForest.toList : XForest → List XElem
  | .nil => []
  | .cons e es => e :: es.toList

def openBraceChar : Char := Char.ofNat 123

def closeBraceChar : Char := Char.ofNat 125

/-- Namespace URI of an expanded tag ("" when unqualified). -/
def tagNs (tag : String) : String :=
  match tag.data with
  | c :: cs =>
    if c = openBraceChar then
      String.mk (cs.takeWhile (fun d => d ≠ closeBraceChar))
    else ""
  | [] => ""

/-- Local part of an expanded tag. -/
def tagLocal (tag : String) : String :=
  match tag.data with
  | c :: cs =>
    if c = openBraceChar then
      String.mk ((cs.dropWhile (fun d => d ≠ closeBraceChar)).drop 1)
    else tag
  | [] => ""

/-- Part of a qualified schema type reference after the colon. -/
def refLocal (s : String) : String :=
  match splitOnColon s with
  | some (_, l) => l
  | none => s

def lexIsDate (s : String) : Bool :=
  match s.data with
  | [y1, y2, y3, y4, h1, m1, m2, h2, d1, d2] =>
    y1.isDigit && y2.isDigit && y3.isDigit && y4.isDigit && h1 = '-'
      && m1.isDigit && m2.isDigit && h2 = '-' && d1.isDigit && d2.isDigit
  | _ => false

def lexIsDecimal (s : String) : Bool :=
  let body :=
    match s.data with
    | '+' :: cs => cs
    | '-' :: cs => cs
    | cs => cs
  let intPart := body.takeWhile Char.isDigit
  match body.drop intPart.length with
  | [] => !intPart.isEmpty
  | '.' :: frac => (!intPart.isEmpty || !frac.isEmpty) && frac.all Char.isDigit
  | _ => false

def schemaChildren (sch : CompiledSchema) : List XElem :=
  sch.doc.children.toList

def namedComplexType (sch : CompiledSchema) (n : String) : Option XElem :=
  (schemaChildren sch).find? fun e =>
    e.tag == clark xsU "complexType" && e.attrVal "name" == some n

mutual
def validateAgainstDecl (sch : CompiledSchema) (decl inst : XElem) :
    Nat → List String
  | 0 => ["Line 0: validation recursion limit reached"]
  | fuel + 1 =>
    match decl.attrVal "name" with
    | none => ["Line 0: element declaration without a name"]
    | some n =>
      if inst.tag != clark sch.targetNamespace n then
        ["Line 0: element " ++ inst.tag ++ ": this element is not expected, expected is "
          ++ clark sch.targetNamespace n]
      else
        match decl.attrVal "type" with
        | some ty =>
          if ty == "xs:string" then []
          else if ty == "xs:date" then
            if inst.children.isNil && lexIsDate inst.text then []
            else ["Line 0: element " ++ inst.tag ++ ": " ++ inst.text
              ++ " is not a valid value of the atomic type xs:date"]
          else if ty == "xs:decimal" then
            if inst.children.isNil && lexIsDecimal inst.text then []
            else ["Line 0: element " ++ inst.tag ++ ": " ++ inst.text
              ++ " is not a valid value of the atomic type xs:decimal"]
          else
            match namedComplexType sch (refLocal ty) with
            | some ct => validateComplexType sch ct inst fuel
            | none => ["Line 0: element " ++ inst.tag ++ ": type " ++ ty ++ " is not resolved"]
        | none =>
          match inst.children, decl.children.toList.find?
              (fun e => e.tag == clark xsU "complexType") with
          | _, some ct => validateComplexType sch ct inst fuel
          | _, none => []
def validateComplexType (sch : CompiledSchema) (ct inst : XElem) :
    Nat → List String
  | 0 => ["Line 0: validation recursion limit reached"]
  | fuel + 1 =>
    let fields := ct.children.toList
    let attrErrs := fields.filterMap fun a =>
      if a.tag == clark xsU "attribute" && a.attrVal "use" == some "required" then
        match a.attrVal "name" with
        | some an =>
          if (inst.attrVal an).isSome then none
          else some ("Line 0: element " ++ inst.tag ++ ": the attribute " ++ an
            ++ " is required but missing")
        | none => none
      else none
    let seqDecls :=
      match fields.find? (fun e => e.tag == clark xsU "sequence") with
      | some sq => sq.children.toList.filter (fun e => e.tag == clark xsU "element")
      | none => []
    let kids := inst.children.toList
    let seqErrs := validateSequence sch seqDecls kids inst.tag fuel
    attrErrs ++ seqErrs
def validateSequence (sch : CompiledSchema) :
    List XElem → List XElem → String → Nat → List String
  | _, _, _, 0 => ["Line 0: validation recursion limit reached"]
  | [], [], _, _ + 1 => []
  | [], e :: _, parentTag, _ + 1 =>
    ["Line 0: element " ++ e.tag ++ ": this element is not expected inside " ++ parentTag]
  | d :: _, [], parentTag, _ + 1 =>
    ["Line 0: element " ++ parentTag ++ ": missing child element "
      ++ ((d.attrVal "name").getD "")]
  | d :: ds, e :: es, parentTag, fuel + 1 =>
    validateAgainstDecl sch d e fuel ++ validateSequence sch ds es parentTag fuel
end

/-- xsd_schema.validate(xml_doc) followed by the error-log translation:
the root element must match one of the top-level element declarations. -/
def structValidate (sch : CompiledSchema) (inst : XElem) : List String :=
  let tops := (schemaChildren sch).filter fun e => e.tag == clark xsU "element"
  match tops.find? (fun d => d.attrVal "name" == some (tagLocal inst.tag)) with
  | some decl => validateAgainstDecl sch decl inst 1000
  | none =>
    ["Line 0: element " ++ inst.tag ++ ": no matching global declaration available"]

/-- validate_tiss_xml.  The source parses the XSD file, builds the
schema object, parses the candidate string and validates, with except
clauses for XMLSyntaxError, XMLSchemaParseError and anything else; a
missing file short-circuits first.  Failure of etree.parse on the file
surfaces through the XMLSyntaxError clause. -/
def validate_tiss_xml (fs : FileState) (xml_content : String) :
    Bool × List String :=
  match fs with
  | .absent => (false, ["TISS XSD schema file not found"])
  | .present fileParse _ =>
    match fileParse with
    | .error e => (false, ["XML Syntax Error: " ++ e])
    | .ok xsdDoc =>
      match compileSchema xsdDoc with
      | .error e => (false, ["XSD Schema Parse Error: " ++ e])
      | .ok sch =>
        match parseXml xml_content with
        | .error e => (false, ["XML Syntax Error: " ++ e])
        | .ok xmlDoc =>
          match structValidate sch xmlDoc with
          | [] => (true, [])
          | errs => (false, errs)

/-- Result dictionary of get_schema_info. -/
inductive SchemaInfo where
  | not_found (message : String)
  | error (message : String)
  | loaded (file_path : String) (file_size : Nat) (target_namespace : String)
      (namespaces : List (String × String)) (root_elements : List String)
deriving DecidableEq, Repr

/-- Path of the schema file for the default directory "schemas". -/
def tiss_xsd_file_path : String := "schemas/tiss_3.05.00.xsd"

/-- get_schema_info.  root_elements is the source expression
[elem.tag for elem in root.findall(".//xs:element", namespaces)]: the
tag, not the name, of every element declaration at any depth.  A missing
xs entry in the prefix map would make findall raise, landing in the
generic except clause as status "error". -/
def get_schema_info (fs : FileState) : SchemaInfo :=
  match fs with
  | .absent => .not_found "XSD schema file not found"
  | .present fileParse size =>
    match fileParse with
    | .error e => .error e
    | .ok root =>
      let namespaces := root.nsmap
      match namespaces.find? (fun p => p.1 == "xs") with
      | none => .error "prefix xs not found in prefix map"
      | some (_, uri) =>
        .loaded tiss_xsd_file_path size
          ((root.attrVal "targetNamespace").getD "")
          namespaces
          ((root.descendants.filter (fun e => e.tag == clark uri "element")).map
            (fun e => e.tag))

/-- is_schema_loaded: the file exists, parses, and builds a schema. -/
def is_schema_loaded (fs : FileState) : Bool :=
  match fs with
  | .absent => false
  | .present fileParse _ =>
    match fileParse with
    | .error _ => false
    | .ok doc => (compileSchema doc).isOk

/-
  Schema provisioning.  The network fetch and the two file writes are
  the only effects; they are modelled by their outcomes.  Writes are
  modelled atomic: a failed write leaves the previous file state.
-/

/-- Outcome of requests.get on the fixed ANS URL: ok false is any
RequestException (timeout, transport, raise_for_status); on success the
body is characterised by how it parses as XML, plus its byte size. -/
structure NetResult where
  ok : Bool
  parse : Except String XElem
  size : Nat

/-- Outcomes of the filesystem writes. -/
structure FsEnv where
  writeFetchedOk : Bool
  writeFallbackOk : Bool

/-- create_basic_tiss_xsd: writes the fallback literal; any exception
makes it return false. -/
def create_basic_tiss_xsd (env : FsEnv) (st : FileState) : Bool × FileState :=
  if env.writeFallbackOk then
    (true, .present (.ok fallbackXsdDoc) fallbackXsdSizeBytes)
  else (false, st)

/-- download_tiss_xsd: fetch, save; on RequestException or any other
exception fall back to create_basic_tiss_xsd. -/
def download_tiss_xsd (net : NetResult) (env : FsEnv) (st : FileState) :
    Bool × FileState :=
  if net.ok then
    if env.writeFetchedOk then (true, .present net.parse net.size)
    else create_basic_tiss_xsd env st
  else create_basic_tiss_xsd env st

/-- generate_tiss_xml_with_validation: the try block generates then
validates; the except clause turns any exception into the
("", False, [message]) triple, so the operation never raises. -/
def generate_tiss_xml_with_validation (db : DB) (now : PyDate)
    (fs : FileState) (claim_id : Nat) :
    Except String (String × Bool × List String) :=
  match generate_tiss_xml db now claim_id with
  | .ok xml =>
    let r := validate_tiss_xml fs xml
    .ok (xml, r.1, r.2)
  | .error e => .ok ("", false, ["Error generating XML: " ++ e])

/-
  Concrete entities used by witnesses and counterexamples, shaped like
  the sample data in the repository tests.
-/

def exPatient : Patient :=
  ⟨1, "Maria Silva", "123.456.789-01", ⟨1990, 1, 1⟩, "Rua A 100", "11999999999",
    "maria at example"⟩

def exProvider : Provider :=
  ⟨1, "Test Hospital", "12.345.678/0001-90", "Av. Principal 500", "Dr. Test"⟩

def exPlan : HealthPlan := ⟨1, "Plano Premium", "PREMIUM001", "123456789"⟩

def exClaim : Claim :=
  ⟨1, 1, 1, 1, some "PROC001", some "A00", ⟨2024, 1, 15⟩, 25000,
    some "Consulta medica", "pending"⟩

def exDB : DB := ⟨[exClaim], [exPatient], [exProvider], [exPlan]⟩

def exNow : PyDate := ⟨2024, 2, 1⟩

/-- The file state right after fallback synthesis. -/
def fallbackFS : FileState :=
  .present (.ok fallbackXsdDoc) fallbackXsdSizeBytes

/-- Database with no rows at all. -/
def emptyDB : DB := ⟨[], [], [], []⟩

/-- A claim referencing patient 42 while the patients table lacks it. -/
def claimOrphan : Claim :=
  ⟨7, 42, 1, 1, some "PROC001", some "A00", ⟨2024, 1, 15⟩, 25000, none, "pending"⟩

def dbMissingPatient : DB := ⟨[claimOrphan], [], [exProvider], [exPlan]⟩

/-- A well-formed minimal schema document that does compile, for
exercising the syntax-error branch of validate_tiss_xml. -/
def simpleXsdDoc : XElem :=
  xnode (clark xsU "schema")
    [("targetNamespace", xmlnsAns), ("elementFormDefault", "qualified")]
    [("xs", xsU)] [xsE "r" "xs:string"] ""

/-- The serialised opening of the root element the generator emits. -/
def rootOpenTag : String :=
  "<ans:mensagemTISS xmlns:ans=\"http://www.ans.gov.br/padroes/tiss/schemas\" version=\"3.05.00\">"

/-- Modelled from the words of the spec, for comparison with
get_schema_info: the list of top-level declared element names of a
schema document, i.e. the name of each element declaration that is a
direct child of the schema root. -/
def topLevelDeclaredElementNames (doc : XElem) : List String :=
  (doc.children.toList.filter (fun e => e.tag == clark xsU "element")).filterMap
    (fun e => e.attrVal "name")

mutual
/-- The element with the text of every processing-date field blanked;
two generation results agree after this scrub exactly when they differ
only in those fields. -/
def XElem.scrubProcessing : XElem → XElem
  | .node t a ns cs tx =>
    .node t a ns cs.scrubProcessing
      (if t == "ans:dataProcessamento" then "" else tx)
def XForest.scrubProcessing : XForest → XForest
  | .nil => .nil
  | .cons e es => .cons e.scrubProcessing es.scrubProcessing
end

/-- Texts of the processing-date fields of a document, in order. -/
def processingDates (e : XElem) : List String :=
  ((e :: e.descendants).filter (fun d => d.tag == "ans:dataProcessamento")).map
    XElem.text

instance instDecEqExcept {ε α : Type} [DecidableEq ε] [DecidableEq α] :
    DecidableEq (Except ε α) := fun a b =>
  match a, b with
  | .ok x, .ok y =>
    if h : x = y then .isTrue (by rw [h]) else .isFalse (by simp [h])
  | .error x, .error y =>
    if h : x = y then .isTrue (by rw [h]) else .isFalse (by simp [h])
  | .ok _, .error _ => .isFalse (by simp)
  | .error _, .ok _ => .isFalse (by simp)

/-
  Theorems.  Shared helper lemmas first, then one theorem per claim with
  its witness or counterexample.
-/

/-- Serialisation of an element with at least one child always takes the
long form. -/
theorem serialize_node_cons (t : String) (a ns : List (String × String))
    (e : XElem) (es : XForest) (tx : String) :
    (XElem.node t a ns (.cons e es) tx).serialize =
      "<" ++ t ++ attrsString a ++ ">" ++ escText tx
        ++ (XForest.cons e es).serializeAll ++ "</" ++ t ++ ">" := by
  simp [XElem.serialize, XForest.isNil]

set_option maxRecDepth 100000

/-- C1: the round trip fails on the code.  For a claim whose four
entities all resolve, the XML generates, but validating it against the
freshly synthesised fallback schema returns false with a schema parse
diagnostic — the fallback XSD declares an attribute named xmlns:ans,
which is not a valid NCName, so the schema never compiles — instead of
the (true, []) the claim and the repository test suite expect. -/
theorem roundtrip_fallback_validation_fails :
    (generate_tiss_xml exDB exNow 1).isOk = true
  ∧ validate_tiss_xml fallbackFS
      ((generate_tiss_xml exDB exNow 1).toOption.getD "") =
      (false, ["XSD Schema Parse Error: attribute name: the value xmlns:ans is not a valid value of the atomic type xs:NCName"])
  ∧ validate_tiss_xml fallbackFS
      ((generate_tiss_xml exDB exNow 1).toOption.getD "") ≠ (true, []) := by
  decide

/-- C2: generation fails with a not-found error exactly when the claim
id or one of its referenced patient, provider, plan ids does not
resolve; the four checks are sequential and each failure carries a
distinct message naming the missing entity type and its id. -/
theorem generate_not_found_exactly (db : DB) (now : PyDate) (cid : Nat) :
    ((generate_tiss_xml db now cid).isOk = true ↔
      ∃ c, db.findClaim cid = some c
        ∧ (db.findPatient c.patient_id).isSome = true
        ∧ (db.findProvider c.provider_id).isSome = true
        ∧ (db.findHealthPlan c.plan_id).isSome = true)
  ∧ (db.findClaim cid = none →
      generate_tiss_xml db now cid =
        .error ("Error generating XML: Claim with ID " ++ toString cid ++ " not found"))
  ∧ (∀ c, db.findClaim cid = some c → db.findPatient c.patient_id = none →
      generate_tiss_xml db now cid =
        .error ("Error generating XML: Patient with ID "
          ++ toString c.patient_id ++ " not found"))
  ∧ (∀ c p, db.findClaim cid = some c → db.findPatient c.patient_id = some p →
      db.findProvider c.provider_id = none →
      generate_tiss_xml db now cid =
        .error ("Error generating XML: Provider with ID "
          ++ toString c.provider_id ++ " not found"))
  ∧ (∀ c p pr, db.findClaim cid = some c → db.findPatient c.patient_id = some p →
      db.findProvider c.provider_id = some pr → db.findHealthPlan c.plan_id = none →
      generate_tiss_xml db now cid =
        .error ("Error generating XML: Health plan with ID "
          ++ toString c.plan_id ++ " not found")) := by
  refine ⟨?_, ?_, ?_, ?_, ?_⟩
  · unfold generate_tiss_xml generate_tiss_xml_core
    rcases hc : db.findClaim cid with _ | c
    · simp [hc, Except.isOk, Except.toBool]
    · rcases hp : db.findPatient c.patient_id with _ | p
      · simp [hc, hp, Except.isOk, Except.toBool]
      · rcases hpr : db.findProvider c.provider_id with _ | pr
        · simp [hc, hp, hpr, Except.isOk, Except.toBool]
        · rcases hh : db.findHealthPlan c.plan_id with _ | hpl
          · simp [hc, hp, hpr, hh, Except.isOk, Except.toBool]
          · simp [hc, hp, hpr, hh, Except.isOk, Except.toBool]
  · intro hc
    unfold generate_tiss_xml generate_tiss_xml_core
    simp [hc, ← String.append_assoc]
  · intro c hc hp
    unfold generate_tiss_xml generate_tiss_xml_core
    simp [hc, hp, ← String.append_assoc]
  · intro c p hc hp hpr
    unfold generate_tiss_xml generate_tiss_xml_core
    simp [hc, hp, hpr, ← String.append_assoc]
  · intro c p pr hc hp hpr hh
    unfold generate_tiss_xml generate_tiss_xml_core
    simp [hc, hp, hpr, hh, ← String.append_assoc]

/-- C2 witness: claim 7 references patient 42, the patients table does
not contain it, and generation fails naming Patient and 42. -/
theorem generate_not_found_exactly_witness :
    generate_tiss_xml dbMissingPatient exNow 7 =
      .error "Error generating XML: Patient with ID 42 not found" := by
  exact (generate_not_found_exactly dbMissingPatient exNow 7).2.2.1 claimOrphan
    rfl rfl

/-- C3 counterexample: with no claim 1 in the database, the not-found
condition holds (generate_tiss_xml raises), yet
generate_tiss_xml_with_validation does not raise: it catches the
exception and returns the ("", False, [message]) triple, with the
message wrapped twice by the Error generating XML head. -/
theorem with_validation_not_found_returns_instead_of_raising :
    generate_tiss_xml emptyDB exNow 1 =
      .error "Error generating XML: Claim with ID 1 not found"
  ∧ generate_tiss_xml_with_validation emptyDB exNow fallbackFS 1 =
      .ok ("", false,
        ["Error generating XML: Error generating XML: Claim with ID 1 not found"]) := by
  decide

/-- C3 amended: generate_tiss_xml_with_validation never raises at all;
a validation failure yields (xml, False, errors) and a generation
failure, the not-found cases included, yields ("", False, [message])
instead of propagating the exception. -/
theorem with_validation_never_raises (db : DB) (now : PyDate) (fs : FileState)
    (cid : Nat) :
    (∃ r, generate_tiss_xml_with_validation db now fs cid = .ok r)
  ∧ (∀ xml, generate_tiss_xml db now cid = .ok xml →
      generate_tiss_xml_with_validation db now fs cid =
        .ok (xml, (validate_tiss_xml fs xml).1, (validate_tiss_xml fs xml).2))
  ∧ (∀ e, generate_tiss_xml db now cid = .error e →
      generate_tiss_xml_with_validation db now fs cid =
        .ok ("", false, ["Error generating XML: " ++ e])) := by
  refine ⟨?_, ?_, ?_⟩
  · rcases hg : generate_tiss_xml db now cid with e | xml
    · exact ⟨("", false, ["Error generating XML: " ++ e]),
        by simp [generate_tiss_xml_with_validation, hg]⟩
    · exact ⟨(xml, (validate_tiss_xml fs xml).1, (validate_tiss_xml fs xml).2),
        by simp [generate_tiss_xml_with_validation, hg]⟩
  · intro xml hx
    simp [generate_tiss_xml_with_validation, hx]
  · intro e he
    simp [generate_tiss_xml_with_validation, he]

/-- C3 amended witness: on a database without the claim, the operation
returns the triple with the twice-wrapped message. -/
theorem with_validation_never_raises_witness :
    generate_tiss_xml_with_validation emptyDB exNow .absent 1 =
      .ok ("", false,
        ["Error generating XML: Error generating XML: Claim with ID 1 not found"]) := by
  exact (with_validation_never_raises emptyDB exNow .absent 1).2.2
    "Error generating XML: Claim with ID 1 not found" rfl

/-- Helper: the serialisation of the assembled root always begins with
the literal opening of the root element. -/
theorem serialize_buildRoot_head (c : Claim) (p : Patient) (pr : Provider)
    (hpl : HealthPlan) (now : PyDate) :
    ∃ rest, (buildRoot c p pr hpl now).serialize = rootOpenTag ++ rest := by
  rw [show buildRoot c p pr hpl now =
    XElem.node "ans:mensagemTISS"
      [("xmlns:ans", xmlnsAns), ("version", tiss_version)] []
      (.cons (create_tiss_header c p pr hpl now)
        (.cons (create_tiss_body c p pr hpl)
          (.cons (create_tiss_footer c pr now) .nil))) "" from rfl]
  rw [serialize_node_cons]
  rw [show "<" ++ "ans:mensagemTISS"
      ++ attrsString [("xmlns:ans", xmlnsAns), ("version", tiss_version)]
      ++ ">" ++ escText "" = rootOpenTag from by decide]
  exact ⟨(XForest.cons (create_tiss_header c p pr hpl now)
      (.cons (create_tiss_body c p pr hpl)
        (.cons (create_tiss_footer c pr now) .nil))).serializeAll
    ++ ("</" ++ ("ans:mensagemTISS" ++ ">")), by
      simp [String.append_assoc]⟩

/-- Helper: a string beginning with the root opening is neither empty
nor headed by an XML declaration. -/
theorem head_rootOpenTag_no_decl (xml rest : String)
    (h : xml = rootOpenTag ++ rest) :
    xml ≠ "" ∧ ∀ r2, xml ≠ "<?xml" ++ r2 := by
  constructor
  · intro hemp
    have hlen := congrArg String.length (h ▸ hemp)
    rw [String.length_append] at hlen
    have h91 : rootOpenTag.length = 91 := by decide
    have h0 : ("" : String).length = 0 := rfl
    omega
  · intro r2 hEq
    have hdata := congrArg String.data (h ▸ hEq)
    rw [String.data_append, String.data_append] at hdata
    have ht := congrArg (List.take 2) hdata
    rw [List.take_append_of_le_length (by decide),
      List.take_append_of_le_length (by decide)] at ht
    exact absurd ht (by decide)

/-- C4 counterexample: ET.tostring with encoding unicode emits no XML
declaration, so for the concrete resolvable claim 1 the string returned
by generate_tiss_xml_with_validation does not start with an XML
declaration; it starts with the root element opening itself. -/
theorem generated_xml_has_no_xml_declaration :
    ∃ xml v errs rest,
      generate_tiss_xml_with_validation exDB exNow fallbackFS 1 =
        .ok (xml, v, errs)
      ∧ xml = rootOpenTag ++ rest
      ∧ ∀ r2, xml ≠ "<?xml" ++ r2 := by
  obtain ⟨rest, hser⟩ :=
    serialize_buildRoot_head exClaim exPatient exProvider exPlan exNow
  have hgen : generate_tiss_xml exDB exNow 1 =
      .ok (buildRoot exClaim exPatient exProvider exPlan exNow).serialize := by
    unfold generate_tiss_xml
    rw [show generate_tiss_xml_core exDB exNow 1 =
      .ok (buildRoot exClaim exPatient exProvider exPlan exNow) from rfl]
  refine ⟨(buildRoot exClaim exPatient exProvider exPlan exNow).serialize,
    (validate_tiss_xml fallbackFS
      (buildRoot exClaim exPatient exProvider exPlan exNow).serialize).1,
    (validate_tiss_xml fallbackFS
      (buildRoot exClaim exPatient exProvider exPlan exNow).serialize).2, rest,
    by simp [generate_tiss_xml_with_validation, hgen], hser,
    (head_rootOpenTag_no_decl _ rest hser).2⟩

/-- C4 amended: for every existing claim with all three relations
resolvable, generate_tiss_xml_with_validation returns a non-empty XML
string that begins directly with the single root element carrying
xmlns:ans="http://www.ans.gov.br/padroes/tiss/schemas" and
version="3.05.00" — there is no XML declaration in front of it. -/
theorem with_validation_output_root_form (db : DB) (now : PyDate)
    (fs : FileState) (cid : Nat) (c : Claim) (p : Patient) (pr : Provider)
    (hpl : HealthPlan)
    (h1 : db.findClaim cid = some c) (h2 : db.findPatient c.patient_id = some p)
    (h3 : db.findProvider c.provider_id = some pr)
    (h4 : db.findHealthPlan c.plan_id = some hpl) :
    ∃ xml v errs rest,
      generate_tiss_xml_with_validation db now fs cid = .ok (xml, v, errs)
      ∧ xml = rootOpenTag ++ rest
      ∧ xml ≠ ""
      ∧ ∀ r2, xml ≠ "<?xml" ++ r2 := by
  have hcore : generate_tiss_xml_core db now cid =
      .ok (buildRoot c p pr hpl now) := by
    unfold generate_tiss_xml_core
    simp only [h1, h2, h3, h4]
  have hgen : generate_tiss_xml db now cid =
      .ok (buildRoot c p pr hpl now).serialize := by
    unfold generate_tiss_xml
    rw [hcore]
  obtain ⟨rest, hrest⟩ := serialize_buildRoot_head c p pr hpl now
  obtain ⟨hne, hnd⟩ := head_rootOpenTag_no_decl _ rest hrest
  exact ⟨(buildRoot c p pr hpl now).serialize,
    (validate_tiss_xml fs (buildRoot c p pr hpl now).serialize).1,
    (validate_tiss_xml fs (buildRoot c p pr hpl now).serialize).2, rest,
    by simp [generate_tiss_xml_with_validation, hgen], hrest, hne, hnd⟩

/-- C4 amended witness: the concrete claim 1 with its three relations
present yields such a string. -/
theorem with_validation_output_root_form_witness :
    ∃ xml v errs rest,
      generate_tiss_xml_with_validation exDB exNow fallbackFS 1 =
        .ok (xml, v, errs)
      ∧ xml = rootOpenTag ++ rest
      ∧ xml ≠ ""
      ∧ ∀ r2, xml ≠ "<?xml" ++ r2 := by
  exact with_validation_output_root_form exDB exNow fallbackFS 1 exClaim
    exPatient exProvider exPlan rfl rfl rfl rfl

/-- C5: starting from no schema file, provisioning returns true exactly
when a schema file exists afterwards (fetched or synthesised); it
returns false only when the fallback write itself fails, leaving no
file; and a network failure is never fatal, it hands over to fallback
synthesis, which succeeds whenever the filesystem write does. -/
theorem ensure_schema_result_spec (net : NetResult) (env : FsEnv) :
    ((download_tiss_xsd net env .absent).1 = true ↔
      xsd_file_exists (download_tiss_xsd net env .absent).2 = true)
  ∧ ((download_tiss_xsd net env .absent).1 = false →
      env.writeFallbackOk = false ∧ (download_tiss_xsd net env .absent).2 = .absent)
  ∧ (net.ok = false →
      download_tiss_xsd net env .absent = create_basic_tiss_xsd env .absent)
  ∧ (net.ok = false → env.writeFallbackOk = true →
      (download_tiss_xsd net env .absent).1 = true) := by
  rcases net with ⟨nok, npr, nsz⟩
  rcases env with ⟨wf, wb⟩
  cases nok <;> cases wf <;> cases wb <;>
    simp [download_tiss_xsd, create_basic_tiss_xsd, xsd_file_exists]

/-- C5 witness: network down, filesystem fine — provisioning falls back
to synthesis and reports success. -/
theorem ensure_schema_result_spec_witness :
    download_tiss_xsd ⟨false, .error "connection timed out", 0⟩ ⟨true, true⟩ .absent =
      create_basic_tiss_xsd ⟨true, true⟩ .absent
  ∧ (download_tiss_xsd ⟨false, .error "connection timed out", 0⟩ ⟨true, true⟩ .absent).1 = true := by
  exact ⟨(ensure_schema_result_spec ⟨false, .error "connection timed out", 0⟩ ⟨true, true⟩).2.2.1 rfl,
    (ensure_schema_result_spec ⟨false, .error "connection timed out", 0⟩ ⟨true, true⟩).2.2.2 rfl rfl⟩

/-- C6 counterexample: on the synthesised fallback schema the
root_elements field of get_schema_info holds 49 copies of the qualified
XSD tag of the element-declaration node — one per declaration at any
depth — and not the list of top-level declared element names, which for
this schema is exactly the single name mensagemTISS. -/
theorem schema_info_root_elements_are_tags_not_names :
    get_schema_info fallbackFS =
      .loaded tiss_xsd_file_path fallbackXsdSizeBytes xmlnsAns
        [("xs", xsU), ("ans", xmlnsAns)]
        (List.replicate 49 (clark xsU "element"))
  ∧ topLevelDeclaredElementNames fallbackXsdDoc = ["mensagemTISS"]
  ∧ get_schema_info fallbackFS ≠
      .loaded tiss_xsd_file_path fallbackXsdSizeBytes xmlnsAns
        [("xs", xsU), ("ans", xmlnsAns)]
        (topLevelDeclaredElementNames fallbackXsdDoc) :=
  ⟨by decide, by decide, by decide⟩

/-- C6 amended: schema_info reports not_found when no file exists; on a
parsable file it reports path, byte size, declared target namespace and
prefix map, and a root_elements list holding the tag of every element
declaration at any depth (not their declared names); a parse failure
yields status error with the detail, as does a prefix map without the
xs entry. -/
theorem get_schema_info_reports :
    (get_schema_info .absent = .not_found "XSD schema file not found")
  ∧ (∀ e sz, get_schema_info (.present (.error e) sz) = .error e)
  ∧ (∀ doc sz pre uri,
      doc.nsmap.find? (fun q => q.1 == "xs") = some (pre, uri) →
      get_schema_info (.present (.ok doc) sz) =
        .loaded tiss_xsd_file_path sz ((doc.attrVal "targetNamespace").getD "")
          doc.nsmap
          ((doc.descendants.filter (fun e2 => e2.tag == clark uri "element")).map
            (fun e2 => e2.tag)))
  ∧ (∀ doc sz, doc.nsmap.find? (fun q => q.1 == "xs") = none →
      get_schema_info (.present (.ok doc) sz) =
        .error "prefix xs not found in prefix map") := by
  refine ⟨rfl, fun e sz => rfl, ?_, ?_⟩
  · intro doc sz pre uri h
    simp [get_schema_info, h]
  · intro doc sz h
    simp [get_schema_info, h]

/-- C6 amended witness: the fallback schema file instantiates the
loaded case. -/
theorem get_schema_info_reports_witness :
    get_schema_info (.present (.ok fallbackXsdDoc) fallbackXsdSizeBytes) =
      .loaded tiss_xsd_file_path fallbackXsdSizeBytes
        ((fallbackXsdDoc.attrVal "targetNamespace").getD "")
        fallbackXsdDoc.nsmap
        ((fallbackXsdDoc.descendants.filter
          (fun e2 => e2.tag == clark xsU "element")).map (fun e2 => e2.tag)) := by
  exact get_schema_info_reports.2.2.1 fallbackXsdDoc fallbackXsdSizeBytes
    "xs" xsU rfl

/-- C7 counterexample: with the schema state the provisioner itself
creates (the fallback file), a malformed input still returns (False,
errors), but the single diagnostic is the schema-parse message — no
message is syntax related, because the schema is compiled before the
input is parsed and the fallback schema never compiles. -/
theorem malformed_validate_fallback_not_syntax :
    (parseXml "<unclosed").isOk = false
  ∧ validate_tiss_xml fallbackFS "<unclosed" =
      (false, ["XSD Schema Parse Error: attribute name: the value xmlns:ans is not a valid value of the atomic type xs:NCName"])
  ∧ (validate_tiss_xml fallbackFS "<unclosed").2.all
      (fun m => !(("XML Syntax Error").data.isPrefixOf m.data)) = true :=
  ⟨by decide, by decide, by decide⟩

/-- C7 amended: for every input that is not well formed, validate
returns (False, errors) with a non-empty error list and never raises;
the message is the XML-syntax one whenever the provisioned schema file
parses and compiles, while a schema that itself fails to compile (as
the synthesised fallback does) yields the schema-parse message
instead. -/
theorem validate_malformed_returns_false (fs : FileState) (s e : String)
    (h : parseXml s = .error e) :
    (validate_tiss_xml fs s).1 = false
  ∧ (validate_tiss_xml fs s).2 ≠ []
  ∧ (∀ doc sz sch, fs = .present (.ok doc) sz → compileSchema doc = .ok sch →
      validate_tiss_xml fs s = (false, ["XML Syntax Error: " ++ e])) := by
  rcases fs with _ | ⟨fp, sz⟩
  · simp [validate_tiss_xml]
  · rcases fp with fe | doc
    · simp [validate_tiss_xml]
    · rcases hcs : compileSchema doc with ce | sch
      · refine ⟨?_, ?_, ?_⟩
        · simp [validate_tiss_xml, hcs]
        · simp [validate_tiss_xml, hcs]
        · intro doc2 sz2 sch2 hfs hc
          obtain ⟨rfl, rfl⟩ : doc2 = doc ∧ sz2 = sz := by
            constructor <;> injection hfs with hfp hsz
            · injection hfp with hd
              exact hd.symm
            · exact hsz.symm
          rw [hcs] at hc
          exact absurd hc (by simp)
      · refine ⟨?_, ?_, ?_⟩
        · simp [validate_tiss_xml, hcs, h]
        · simp [validate_tiss_xml, hcs, h]
        · intro doc2 sz2 sch2 hfs hc
          simp [validate_tiss_xml, hcs, h]

/-- C7 amended witness: a small schema that does compile plus an
unclosed tag produce exactly the syntax diagnostic. -/
theorem validate_malformed_returns_false_witness :
    validate_tiss_xml (.present (.ok simpleXsdDoc) 0) "<unclosed" =
      (false, ["XML Syntax Error: " ++ "malformed start tag end"]) := by
  exact (validate_malformed_returns_false (.present (.ok simpleXsdDoc) 0)
    "<unclosed" "malformed start tag end" (by decide)).2.2 simpleXsdDoc 0
    ⟨xmlnsAns, simpleXsdDoc⟩ rfl rfl

/-- C8: with no schema file on disk, validate returns false with the
single message naming the missing schema (which contains the words not
found), schema_info reports status not_found, and neither operation
raises. -/
theorem validate_and_info_when_schema_missing (s : String) :
    validate_tiss_xml .absent s = (false, ["TISS XSD schema file not found"])
  ∧ (∃ pre post, "TISS XSD schema file not found" = pre ++ "not found" ++ post)
  ∧ get_schema_info .absent = .not_found "XSD schema file not found" :=
  ⟨rfl, ⟨"TISS XSD schema file ", "", by decide⟩, rfl⟩

/-- C9: two generation runs over the same database differ only in the
processing-date fields: after blanking those two fields the element
trees (and their serialisations) coincide, and each document carries its
own clock day in exactly the header and footer dataProcessamento
fields. -/
theorem generate_idempotent_modulo_processing_dates (db : DB) (cid : Nat)
    (d1 d2 : PyDate) (t1 t2 : XElem)
    (h1 : generate_tiss_xml_core db d1 cid = .ok t1)
    (h2 : generate_tiss_xml_core db d2 cid = .ok t2) :
    generate_tiss_xml db d1 cid = .ok t1.serialize
  ∧ generate_tiss_xml db d2 cid = .ok t2.serialize
  ∧ t1.scrubProcessing = t2.scrubProcessing
  ∧ t1.scrubProcessing.serialize = t2.scrubProcessing.serialize
  ∧ processingDates t1 = [d1.fmt, d1.fmt]
  ∧ processingDates t2 = [d2.fmt, d2.fmt] := by
  have g1 : generate_tiss_xml db d1 cid = .ok t1.serialize := by
    unfold generate_tiss_xml
    rw [h1]
  have g2 : generate_tiss_xml db d2 cid = .ok t2.serialize := by
    unfold generate_tiss_xml
    rw [h2]
  unfold generate_tiss_xml_core at h1 h2
  rcases hc : db.findClaim cid with _ | c
  · simp only [hc] at h1
    exact absurd h1 (by simp)
  simp only [hc] at h1 h2
  rcases hp : db.findPatient c.patient_id with _ | p
  · simp only [hp] at h1
    exact absurd h1 (by simp)
  simp only [hp] at h1 h2
  rcases hpr : db.findProvider c.provider_id with _ | pr
  · simp only [hpr] at h1
    exact absurd h1 (by simp)
  simp only [hpr] at h1 h2
  rcases hh : db.findHealthPlan c.plan_id with _ | hpl
  · simp only [hh] at h1
    exact absurd h1 (by simp)
  simp only [hh] at h1 h2
  injection h1 with e1
  injection h2 with e2
  subst e1
  subst e2
  refine ⟨g1, g2, rfl, rfl, rfl, rfl⟩

/-- C9 witness: claim 1 generated on two different days. -/
theorem generate_idempotent_modulo_processing_dates_witness :
    generate_tiss_xml exDB exNow 1 =
      .ok (buildRoot exClaim exPatient exProvider exPlan exNow).serialize
  ∧ generate_tiss_xml exDB ⟨2025, 3, 9⟩ 1 =
      .ok (buildRoot exClaim exPatient exProvider exPlan ⟨2025, 3, 9⟩).serialize
  ∧ (buildRoot exClaim exPatient exProvider exPlan exNow).scrubProcessing =
      (buildRoot exClaim exPatient exProvider exPlan ⟨2025, 3, 9⟩).scrubProcessing
  ∧ (buildRoot exClaim exPatient exProvider exPlan exNow).scrubProcessing.serialize =
      (buildRoot exClaim exPatient exProvider exPlan
        ⟨2025, 3, 9⟩).scrubProcessing.serialize
  ∧ processingDates (buildRoot exClaim exPatient exProvider exPlan exNow) =
      [exNow.fmt, exNow.fmt]
  ∧ processingDates (buildRoot exClaim exPatient exProvider exPlan ⟨2025, 3, 9⟩) =
      [PyDate.fmt ⟨2025, 3, 9⟩, PyDate.fmt ⟨2025, 3, 9⟩] := by
  exact generate_idempotent_modulo_processing_dates exDB 1 exNow ⟨2025, 3, 9⟩
    (buildRoot exClaim exPatient exProvider exPlan exNow)
    (buildRoot exClaim exPatient exProvider exPlan ⟨2025, 3, 9⟩) rfl rfl

/-- C10: every failure of generate_tiss_xml surfaces as the error of
the inner try block re-raised with the Error generating XML head, so a
not-found failure reaches the caller wrapped in a second ValueError
carrying the head rather than as the bare not-found message. -/
theorem generate_errors_carry_wrap_head (db : DB) (now : PyDate) (cid : Nat)
    (e : String) (h : generate_tiss_xml db now cid = .error e) :
    ∃ m, generate_tiss_xml_core db now cid = .error m
      ∧ e = "Error generating XML: " ++ m
      ∧ e ≠ m := by
  unfold generate_tiss_xml at h
  rcases hcore : generate_tiss_xml_core db now cid with m | root
  · simp only [hcore] at h
    injection h with he
    refine ⟨m, rfl, he.symm, ?_⟩
    intro hem
    have hlen := congrArg String.length (he.symm ▸ hem)
    rw [String.length_append] at hlen
    have h22 : ("Error generating XML: " : String).length = 22 := by decide
    omega
  · simp only [hcore] at h
    exact absurd h (by simp)

/-- C10 witness: the missing claim 1 reaches the caller as the wrapped
message, not as the bare one. -/
theorem generate_errors_carry_wrap_head_witness :
    ∃ m, generate_tiss_xml_core emptyDB exNow 1 = .error m
      ∧ "Error generating XML: Claim with ID 1 not found" =
          "Error generating XML: " ++ m
      ∧ "Error generating XML: Claim with ID 1 not found" ≠ m := by
  exact generate_errors_carry_wrap_head emptyDB exNow 1
    "Error generating XML: Claim with ID 1 not found" (by decide)

end TISS
